import Mathlib

/-!
Verification of the menstrual-cycle phase inference engine and its two
downstream generators (recommendation generation and event suggestion)
of the independent-queens backend.

The embedding follows `src/image/src/services/menstrual_health_service.py`,
`src/image/src/services/menstrual_recommendations_service.py`,
`src/image/src/services/event_suggestion_service.py` and the models in
`src/image/src/models/`.

Modelling conventions:
* Python `datetime` values are modelled by their proleptic-Gregorian calendar
  date (`Date` below) since `calculate_phase` only ever uses calendar-day
  differences (`timedelta.days` of a difference between a midnight-anchored
  parsed date and "now" is exactly the difference of their `toordinal`
  values, the time of day cancels).
* `datetime.strptime(s, "%Y-%m-%d")` is modelled by `strptimeYMD`, which
  follows CPython's `_strptime` regular expressions for `%Y`, `%m` and `%d`
  (four ASCII digits for the year, one or two digits for month and day)
  followed by the calendar validity check that the `datetime` constructor
  performs.  `strftime("%Y-%m-%d")` is modelled zero padded, as documented,
  which is exact for the years 1..9999 that a `datetime` can hold.
* The module-import timestamp at which `datetime.utcnow()` is evaluated for
  the pydantic field defaults is threaded through as a parameter `t`.
-/

/-- Proleptic Gregorian calendar date, the date component of a Python
`datetime`. -/
structure Date where
  year : Nat
  month : Nat
  day : Nat
  deriving DecidableEq

/-- Leap year test of the Gregorian calendar (as in CPython's
`datetime._is_leap`). -/
def isLeapYear (y : Nat) : Prop :=
  (y % 4 = 0 ∧ ¬y % 100 = 0) ∨ y % 400 = 0

instance (y : Nat) : Decidable (isLeapYear y) :=
  inferInstanceAs (Decidable ((y % 4 = 0 ∧ ¬y % 100 = 0) ∨ y % 400 = 0))

/-- Number of days in a month (as in CPython's `datetime._days_in_month`). -/
def daysInMonth (y m : Nat) : Nat :=
  if m = 2 then (if isLeapYear y then 29 else 28)
  else if m = 4 ∨ m = 6 ∨ m = 9 ∨ m = 11 then 30
  else 31

/-- Days in all years before year `y` (as in CPython's
`datetime._days_before_year`). -/
def daysBeforeYear (y : Nat) : Nat :=
  365 * (y - 1) + (y - 1) / 4 - (y - 1) / 100 + (y - 1) / 400

/-- Days in year `y` preceding the first of month `m` (as in CPython's
`datetime._days_before_month`). -/
def daysBeforeMonth (y m : Nat) : Nat :=
  (match m with
   | 1 => 0 | 2 => 31 | 3 => 59 | 4 => 90 | 5 => 120 | 6 => 151
   | 7 => 181 | 8 => 212 | 9 => 243 | 10 => 273 | 11 => 304 | 12 => 334
   | _ => 0)
  + (if 2 < m ∧ isLeapYear y then 1 else 0)

/-- Ordinal of a date: days since 0000-12-31, so that 0001-01-01 is day 1
(CPython's `datetime.toordinal`). -/
def toOrdinal (dt : Date) : Nat :=
  daysBeforeYear dt.year + daysBeforeMonth dt.year dt.month + dt.day

/-- Validity predicate that the `datetime.date` constructor enforces on its
components (the year upper bound 9999 is checked separately where needed). -/
def isValidDate (dt : Date) : Prop :=
  1 ≤ dt.year ∧ 1 ≤ dt.month ∧ dt.month ≤ 12 ∧ 1 ≤ dt.day ∧
    dt.day ≤ daysInMonth dt.year dt.month

instance (dt : Date) : Decidable (isValidDate dt) :=
  inferInstanceAs (Decidable (1 ≤ dt.year ∧ 1 ≤ dt.month ∧ dt.month ≤ 12 ∧ 1 ≤ dt.day ∧
    dt.day ≤ daysInMonth dt.year dt.month))

/-- Calendar predecessor of a date. -/
def prevDay (dt : Date) : Date :=
  if 1 < dt.day then ⟨dt.year, dt.month, dt.day - 1⟩
  else if 1 < dt.month then ⟨dt.year, dt.month - 1, daysInMonth dt.year (dt.month - 1)⟩
  else ⟨dt.year - 1, 12, 31⟩

/-- Going back `n` calendar days: the date of `now - timedelta(days=n)`. -/
def subDays (dt : Date) : Nat → Date
  | 0 => dt
  | n + 1 => prevDay (subDays dt n)

/-- Calendar successor of a date. -/
def nextDay (dt : Date) : Date :=
  if dt.day < daysInMonth dt.year dt.month then ⟨dt.year, dt.month, dt.day + 1⟩
  else if dt.month < 12 then ⟨dt.year, dt.month + 1, 1⟩
  else ⟨dt.year + 1, 1, 1⟩

/-- Going forward `n` calendar days: the date of `now + timedelta(days=n)`. -/
def addDays (dt : Date) : Nat → Date
  | 0 => dt
  | n + 1 => nextDay (addDays dt n)

/-- Numeric value of an ASCII digit character. -/
def digitVal (c : Char) : Nat := c.toNat - '0'.toNat

/-- Parse a non-empty all-digit character list as a decimal number (the
value that Python's `int` conversion inside `strptime` produces). -/
def parseNatDigits (cs : List Char) : Option Nat :=
  if cs ≠ [] ∧ cs.all Char.isDigit then
    some (cs.foldl (fun acc c => 10 * acc + digitVal c) 0)
  else none

/-- Worker for splitting a character list at `-` separators. -/
def splitGo : List Char → List Char → List (List Char)
  | [], acc => [acc.reverse]
  | c :: rest, acc =>
    if c = '-' then acc.reverse :: splitGo rest [] else splitGo rest (c :: acc)

/-- Split a character list at every `-` (the literal separators of the
`"%Y-%m-%d"` format). -/
def splitOnDash (cs : List Char) : List (List Char) := splitGo cs []

/-- Model of `datetime.strptime(s, "%Y-%m-%d")`: CPython's `_strptime`
matches `%Y` against exactly four digits and `%m`/`%d` against one or two
digits bounded by 12 resp. 31, demands that the whole string is consumed,
and then the `datetime` constructor validates the calendar date (year at
least 1, day at most the month length).  Returns `none` where CPython raises
`ValueError`.  (Non-ASCII Unicode digits, which CPython's `\d` would also
accept, are not modelled; no property depends on them.) -/
def parseYMDparts (ys ms ds : List Char) : Option Date :=
  if ys.length = 4 ∧ ms.length ≤ 2 ∧ ds.length ≤ 2 then
    match parseNatDigits ys, parseNatDigits ms, parseNatDigits ds with
    | some y, some m, some d =>
      if 1 ≤ y ∧ 1 ≤ m ∧ m ≤ 12 ∧ 1 ≤ d ∧ d ≤ 31 ∧ d ≤ daysInMonth y m
      then some ⟨y, m, d⟩
      else none
    | _, _, _ => none
  else none

def strptimeYMD (s : String) : Option Date :=
  match splitOnDash s.data with
  | [ys, ms, ds] => parseYMDparts ys ms ds
  | _ => none

/-- Two-digit zero-padded rendering (`%m`, `%d`). -/
def pad2 (n : Nat) : List Char := [Nat.digitChar (n / 10), Nat.digitChar (n % 10)]

/-- Four-digit zero-padded rendering (`%Y`, exact for years up to 9999,
which is `datetime.MAXYEAR`). -/
def pad4 (n : Nat) : List Char :=
  [Nat.digitChar (n / 1000), Nat.digitChar (n / 100 % 10),
   Nat.digitChar (n / 10 % 10), Nat.digitChar (n % 10)]

/-- Model of `.strftime("%Y-%m-%d")`. -/
def strftimeYMD (dt : Date) : String :=
  ⟨pad4 dt.year ++ '-' :: (pad2 dt.month ++ '-' :: pad2 dt.day)⟩

/-- Question/answer pair attached to a user (`models/user.py`, `QAPair`). -/
structure QAPair where
  question : String
  answer : String
  deriving DecidableEq

/-- The four phase tags (`models/menstrual_health.py`, `MenstrualPhase`). -/
inductive MenstrualPhase where
  | menstrual
  | follicular
  | ovulation
  | luteal
  deriving DecidableEq

/-- Result of the phase calculator (`models/menstrual_health.py`,
`PhaseResponse`).  `calculated_at` is an abstract timestamp; the pydantic
default `datetime.utcnow()` is evaluated once, when the class body runs at
module import, so constructions that omit the field all receive that single
import-time value (threaded through the service as the parameter `t`). -/
structure PhaseResponse where
  phase : Option MenstrualPhase
  has_data : Bool
  message : Option String
  calculated_at : Int
  deriving DecidableEq

def q_last_period : String := "When was the first day of your last period?"

def q_duration : String := "How long does your period typically last?"

def msg_no_data : String := "No menstrual health data available"

def msg_no_date : String := "Last period date not provided"

def msg_no_duration : String := "Period duration not provided"

def msg_invalid_date : String := "Invalid date format for last period"

/-- The scanning loop shared by `check_required_data` and `calculate_phase`:
walk the QA pairs and keep the answer of the latest occurrence of each of
the two recognized questions (later pairs overwrite earlier ones). -/
def scanFacts : List QAPair → Option String × Option String → Option String × Option String
  | [], acc => acc
  | qa :: rest, (l, d) =>
    if qa.question = q_last_period then scanFacts rest (some qa.answer, d)
    else if qa.question = q_duration then scanFacts rest (l, some qa.answer)
    else scanFacts rest (l, d)

/-- Python truthiness of an `Optional[str]`: `None` and the empty string are
falsy. -/
def truthyStr : Option String → Bool
  | none => false
  | some s => !s.isEmpty

/-- Model of `MenstrualHealthService.check_required_data`. -/
def check_required_data (qa_pairs : List QAPair) : Bool × Option String :=
  if qa_pairs.isEmpty then (false, some msg_no_data)
  else if !truthyStr (scanFacts qa_pairs (none, none)).1 then (false, some msg_no_date)
  else if !truthyStr (scanFacts qa_pairs (none, none)).2 then (false, some msg_no_duration)
  else (true, none)

/-- The second loop of `calculate_phase`: re-walk the QA pairs, parsing every
answer to the last-period question (returning the invalid-date response as
soon as one fails to parse, as the `try`/`except ValueError` does) and
keeping the latest answer to the duration question. -/
def parseDateLoop (t : Int) : List QAPair → Option Date → Option String →
    Except PhaseResponse (Option Date × Option String)
  | [], l, d => .ok (l, d)
  | qa :: rest, l, d =>
    if qa.question = q_last_period then
      match strptimeYMD qa.answer with
      | some dt => parseDateLoop t rest (some dt) d
      | none =>
        .error { phase := none, has_data := false,
                 message := some msg_invalid_date, calculated_at := t }
    else if qa.question = q_duration then parseDateLoop t rest l (some qa.answer)
    else parseDateLoop t rest l d

/-- The period length table `{"3-5": 4, "5-7": 6, "7-10": 8, "10+": 10}.get(d, 5)`
(`.get` on `None` also yields the default 5). -/
def period_length_of : Option String → Nat
  | some s =>
    if s = "3-5" then 4
    else if s = "5-7" then 6
    else if s = "7-10" then 8
    else if s = "10+" then 10
    else 5
  | none => 5

/-- Model of `MenstrualHealthService.calculate_phase`, with an explicit fuel
bounding the recursion depth (`none` models a computation the Python code
cannot complete: either the recursion exceeding the fuel, or the two spots
where Python would raise — subtracting a `None` date or constructing
`QAPair(answer=None)` — both of which are proved unreachable).  `t` is the
import-time `datetime.utcnow()` used by the pydantic field default, `now`
the calendar date of `datetime.now()` at the invocation. -/
def calculate_phase_aux (t : Int) : Nat → List QAPair → Date → Option PhaseResponse
  | 0, _, _ => none
  | fuel + 1, qa_pairs, now =>
    let checked := check_required_data qa_pairs
    if !checked.1 then
      some { phase := none, has_data := false, message := checked.2, calculated_at := t }
    else
      match parseDateLoop t qa_pairs none none with
      | .error resp => some resp
      | .ok (lastDate, period_duration) =>
        match lastDate with
        | none => none
        | some last_period_date =>
          let days_since_period : Int :=
            (toOrdinal now : Int) - (toOrdinal last_period_date : Int)
          let period_length : Int := (period_length_of period_duration : Int)
          let follicular_length : Int := 14 - period_length
          let ovulation_length : Int := 3
          if days_since_period < period_length then
            some { phase := some .menstrual, has_data := true, message := none,
                   calculated_at := t }
          else if days_since_period < period_length + follicular_length then
            some { phase := some .follicular, has_data := true, message := none,
                   calculated_at := t }
          else if days_since_period <
              period_length + follicular_length + ovulation_length then
            some { phase := some .ovulation, has_data := true, message := none,
                   calculated_at := t }
          else if days_since_period < 28 then
            some { phase := some .luteal, has_data := true, message := none,
                   calculated_at := t }
          else
            let current_cycle_day := days_since_period % 28
            match period_duration with
            | none => none
            | some dur =>
              calculate_phase_aux t fuel
                [ { question := q_last_period,
                    answer := strftimeYMD (subDays now current_cycle_day.toNat) },
                  { question := q_duration, answer := dur } ] now

/-- Entry point `MenstrualHealthService.calculate_phase`; fuel 2 suffices (a
fact proved below: the normalized recursive call never recurses again). -/
def calculate_phase (t : Int) (qa_pairs : List QAPair) (now : Date) : Option PhaseResponse :=
  calculate_phase_aux t 2 qa_pairs now

/-- Days from `last` to `now` as `calculate_phase` computes them:
`(datetime.now() - last).days`, which equals the ordinal difference. -/
def daysSince (now last : Date) : Int :=
  (toOrdinal now : Int) - (toOrdinal last : Int)

/-- Phase selected for day `d` of the cycle under representative period
length `L`; the code's thresholds `L`, `L + (14 - L)`, `L + (14 - L) + 3`,
`28` collapse to `L`, 14, 17, 28. -/
def phase_of_day (d : Int) (L : Nat) : MenstrualPhase :=
  if d < L then .menstrual
  else if d < 14 then .follicular
  else if d < 17 then .ovulation
  else .luteal

/-- JSON values as produced by `json.loads`.  Numbers keep their raw token
(neither generator ever reads a numeric value, so float semantics are not
needed). -/
inductive Json where
  | null
  | bool (b : Bool)
  | num (raw : String)
  | str (s : String)
  | arr (items : List Json)
  | obj (fields : List (String × Json))

/-- Python exceptions that escape the two generator services.
`valueError` carries the message; `keyError` the missing key.  `typeError`
stands for the `TypeError`/`AttributeError` raised when a subscript or
`.lower()` hits a value of the wrong type, `validationError` for pydantic's
`ValidationError` on a constructor argument of the wrong shape. -/
inductive PyError where
  | valueError (msg : String)
  | keyError (key : String)
  | typeError
  | validationError
  deriving DecidableEq

/-- Spec §7 error taxonomy classes relevant to the generators. -/
inductive ErrorClass where
  | insufficientData
  | generationParseError
  deriving DecidableEq

/-- Map an escaping exception to the spec's taxonomy: the explicit
"Insufficient menstrual data" `ValueError`s are `InsufficientData`; every
other failure of the generators is a collaborator reply that did not match
the expected shape (spec §4.2: "fail with `GenerationParseError` if the
reply is not well-formed or missing required keys"). -/
def classify_error : PyError → ErrorClass
  | .valueError m =>
    if m = "Insufficient menstrual data to generate recommendations" ∨
       m = "Insufficient menstrual data to generate suggestions"
    then .insufficientData else .generationParseError
  | _ => .generationParseError

/-- Dictionary lookup `d[k]` on a parsed JSON value: `KeyError` when the key
is absent, `TypeError` when the value is not an object (duplicate keys in a
JSON object resolve to the last occurrence, as in `json.loads`). -/
def lookup_last : List (String × Json) → String → Option Json
  | [], _ => none
  | (k', v) :: rest, k =>
    match lookup_last rest k with
    | some r => some r
    | none => if k' = k then some v else none

def jget (j : Json) (k : String) : Except PyError Json :=
  match j with
  | .obj fields =>
    match lookup_last fields k with
    | some v => .ok v
    | none => .error (.keyError k)
  | _ => .error (.typeError)

/-- Pydantic `str` field validation. -/
def as_str : Json → Option String
  | .str s => some s
  | _ => none

/-- Pydantic `List[str]` field validation. -/
def as_str_list : Json → Option (List String)
  | .arr items =>
    items.foldr (fun x acc =>
      match x, acc with
      | .str s, some rest => some (s :: rest)
      | _, _ => none) (some [])
  | _ => none

/-- Calendar event (`models/user.py`, `Event`). -/
structure Event where
  id : String
  title : String
  start : String
  «end» : String
  color : String
  deriving DecidableEq

/-- Suggested event (`models/suggested_event.py`, `SuggestedEvent`). -/
structure SuggestedEvent where
  id : String
  title : String
  start : String
  «end» : String
  color : String
  type : String
  reason : String
  deriving DecidableEq

/-- ASCII model of Python's `str.lower()` (lowers the basic latin letters;
none of the fixed category keys or the "yes" comparison involve other
characters). -/
def py_lower (s : String) : String := ⟨s.data.map Char.toLower⟩

/-- Fixed category → color table (`models/suggested_event.py`,
`EVENT_COLORS`). -/
def EVENT_COLORS : List (String × String) :=
  [("wellness", "#4CAF50"), ("productivity", "#2196F3"), ("rest", "#9C27B0"),
   ("social", "#FF9800"), ("learning", "#795548")]

/-- Color resolution `EVENT_COLORS.get(event["type"].lower(), "#607D8B")`. -/
def event_color (ty : String) : String :=
  match EVENT_COLORS.lookup (py_lower ty) with
  | some c => c
  | none => "#607D8B"

/-- Recommendation set (`models/menstrual_recommendations.py`).
`generated_at` has the same import-time `datetime.utcnow()` default as
`PhaseResponse.calculated_at`. -/
structure MenstrualRecommendations where
  phase : MenstrualPhase
  diet_recommendations : List String
  exercise_recommendations : List String
  symptoms_to_watch : List String
  affirmation : String
  generated_at : Int
  deriving DecidableEq

/-- The profile fields of `models/user.py` `User` that the two generators
read; the remaining plumbing fields (email, names, coins, ...) are omitted
because no core code path touches them. -/
structure User where
  age : Option Nat
  profession : Option String
  interests : List String
  events : List Event
  qa_pairs : List QAPair
  deriving DecidableEq

def q_mood : String := "How would you describe your mood recently?"

def q_confidence : String :=
  "Do you feel confident about your knowledge about your menstrual health"

/-- Latest answer to a question (a scan without `break`: later pairs win),
as the mood loop of `_create_prompt` does. -/
def last_answer (q : String) : List QAPair → Option String → Option String
  | [], acc => acc
  | qa :: rest, acc =>
    last_answer q rest (if qa.question = q then some qa.answer else acc)

/-- First answer to a question (a scan with `break`: the first pair wins),
as the confidence loop of `get_recommendations` does. -/
def first_answer (q : String) : List QAPair → Option String
  | [] => none
  | qa :: rest => if qa.question = q then some qa.answer else first_answer q rest

/-- Rendering of a value in an f-string (`None` prints as "None"). -/
def opt_nat_str : Option Nat → String
  | none => "None"
  | some n => toString n

def opt_str : Option String → String
  | none => "None"
  | some s => s

/-- Rendering of the phase inside the prompt f-strings. -/
def phase_str : Option MenstrualPhase → String
  | none => "None"
  | some .menstrual => "menstrual"
  | some .follicular => "follicular"
  | some .ovulation => "ovulation"
  | some .luteal => "luteal"

/-- Model of `MenstrualRecommendationsService._create_prompt`.  The literal
prose of the template is abridged; the dynamic structure (age, phase, mood
from the latest mood answer defaulting to "neutral", confidence level) is
preserved.  No verified property depends on the prompt wording. -/
def create_recommendations_prompt (user : User) (phase : String)
    (has_confidence : Bool) : String :=
  let mood := (last_answer q_mood user.qa_pairs none).getD "neutral"
  "As a menstrual health expert, provide personalized recommendations for a "
    ++ opt_nat_str user.age ++ "-year-old person in their " ++ phase
    ++ " phase who is feeling " ++ mood
    ++ ". Their confidence in menstrual health knowledge is "
    ++ (if has_confidence then "high" else "low")
    ++ ". Return the response in JSON format with keys diet_recommendations, "
    ++ "exercise_recommendations, symptoms_to_watch, affirmation."

/-- Model of `EventSuggestionService._format_events_for_prompt`. -/
def format_events_for_prompt (events : List Event) : String :=
  events.foldl
    (fun acc e => acc ++ "- " ++ e.title ++ " from " ++ e.start ++ " to "
      ++ e.«end» ++ "\n") ""

/-- Model of `EventSuggestionService._get_week_range`: today and today + 6
days, both formatted `%Y-%m-%d`. -/
def get_week_range (now : Date) : String × String :=
  (strftimeYMD now, strftimeYMD (addDays now 6))

/-- Model of `EventSuggestionService._create_prompt` (prose abridged, same
caveat as `create_recommendations_prompt`). -/
def create_events_prompt (user : User) (phase : String)
    (week_start week_end : String) : String :=
  let interests_str :=
    if user.interests.isEmpty then "no specific interests listed"
    else String.intercalate ", " user.interests
  "As an event planning expert, suggest 5-6 personalized events for a "
    ++ opt_nat_str user.age ++ "-year-old " ++ opt_str user.profession
    ++ " who is in their " ++ phase
    ++ " phase of menstrual cycle. Consider their interests: " ++ interests_str
    ++ ". Current schedule for reference: "
    ++ format_events_for_prompt user.events
    ++ " Generate suggestions for the week of " ++ week_start ++ " to "
    ++ week_end ++ ". Return the response in JSON format with key suggested_events."

/-- Model of `MenstrualRecommendationsService.get_recommendations`.

The OpenAI collaborator is an oracle: `reply` is the outcome of
`json.loads(response["response"])` on its answer (`none` when the raw text
is not JSON, i.e. `json.JSONDecodeError`).  The second component of the
result collects the prompts sent to the collaborator, so "zero generation
calls" is literally an empty list.  The outer `none` models the
fuel-exhaustion/crash cases of `calculate_phase`, proved unreachable. -/
def get_recommendations (t : Int) (user : User) (now : Date)
    (reply : Option Json) : Option (Except PyError MenstrualRecommendations × List String) :=
  match calculate_phase t user.qa_pairs now with
  | none => none
  | some phase_response =>
    if !phase_response.has_data then
      some (.error (.valueError "Insufficient menstrual data to generate recommendations"), [])
    else
      let has_confidence :=
        match first_answer q_confidence user.qa_pairs with
        | some a => py_lower a = "yes"
        | none => false
      let prompt :=
        create_recommendations_prompt user (phase_str phase_response.phase) has_confidence
      match reply with
      | none => some (.error (.valueError "Failed to parse recommendations"), [prompt])
      | some j =>
        match jget j "diet_recommendations" with
        | .error e => some (.error e, [prompt])
        | .ok diet =>
        match jget j "exercise_recommendations" with
        | .error e => some (.error e, [prompt])
        | .ok exercise =>
        match jget j "symptoms_to_watch" with
        | .error e => some (.error e, [prompt])
        | .ok symptoms =>
        match jget j "affirmation" with
        | .error e => some (.error e, [prompt])
        | .ok affirmation =>
        match phase_response.phase with
        | none => some (.error .validationError, [prompt])
        | some ph =>
          match as_str_list diet, as_str_list exercise, as_str_list symptoms,
              as_str affirmation with
          | some dl, some el, some sl, some aff =>
            some (.ok { phase := ph, diet_recommendations := dl,
                        exercise_recommendations := el, symptoms_to_watch := sl,
                        affirmation := aff, generated_at := t }, [prompt])
          | _, _, _, _ => some (.error .validationError, [prompt])

/-- Per-item loop of `get_suggested_events`: for each parsed item, look up
`"type"` first (it feeds the color before the constructor arguments), then
the remaining fields, validate that all are strings, and attach a fresh
identifier `"sugg_" + uuid4()` (the uuid supply is the oracle `uuidGen`,
indexed by position). -/
def build_suggested_events (uuidGen : Nat → String) :
    List Json → Nat → Except PyError (List SuggestedEvent)
  | [], _ => .ok []
  | item :: rest, i =>
    match jget item "type" with
    | .error e => .error e
    | .ok tyJ =>
      match as_str tyJ with
      | none => .error .typeError
      | some ty =>
        match jget item "title" with
        | .error e => .error e
        | .ok titleJ =>
        match jget item "start" with
        | .error e => .error e
        | .ok startJ =>
        match jget item "end" with
        | .error e => .error e
        | .ok endJ =>
        match jget item "reason" with
        | .error e => .error e
        | .ok reasonJ =>
          match as_str titleJ, as_str startJ, as_str endJ, as_str reasonJ with
          | some title, some start, some endS, some reason =>
            match build_suggested_events uuidGen rest (i + 1) with
            | .error e => .error e
            | .ok evs =>
              .ok ({ id := "sugg_" ++ uuidGen i, title := title, start := start,
                     «end» := endS, color := event_color ty, type := ty,
                     reason := reason } :: evs)
          | _, _, _, _ => .error .validationError

/-- Model of `EventSuggestionService.get_suggested_events` (same oracle
conventions as `get_recommendations`; iterating a non-list
`"suggested_events"` value, which Python would iterate element-wise before
failing on subscripting, is modelled as the type failure). -/
def get_suggested_events (t : Int) (user : User) (now : Date)
    (reply : Option Json) (uuidGen : Nat → String) :
    Option (Except PyError (List SuggestedEvent) × List String) :=
  match calculate_phase t user.qa_pairs now with
  | none => none
  | some phase_response =>
    if !phase_response.has_data then
      some (.error (.valueError "Insufficient menstrual data to generate suggestions"), [])
    else
      let wk := get_week_range now
      let prompt :=
        create_events_prompt user (phase_str phase_response.phase) wk.1 wk.2
      match reply with
      | none => some (.error (.valueError "Failed to parse event suggestions"), [prompt])
      | some j =>
        match jget j "suggested_events" with
        | .error e => some (.error e, [prompt])
        | .ok evJ =>
          match evJ with
          | .arr items =>
            match build_suggested_events uuidGen items 0 with
            | .error e => some (.error e, [prompt])
            | .ok evs => some (.ok evs, [prompt])
          | _ => some (.error .typeError, [prompt])

/-! Calendar and parsing lemmas. -/

theorem daysInMonth_le_31 (y m : Nat) : daysInMonth y m ≤ 31 := by
  unfold daysInMonth; split_ifs <;> omega

theorem daysInMonth_pos (y m : Nat) : 1 ≤ daysInMonth y m := by
  unfold daysInMonth; split_ifs <;> omega

theorem digitChar_ne_dash (n : Nat) : Nat.digitChar n ≠ '-' := by
  by_cases h : n ≤ 15
  · interval_cases n <;> decide
  · unfold Nat.digitChar
    repeat rw [if_neg (by omega)]
    decide

theorem digitChar_isDigit (n : Nat) (h : n < 10) : (Nat.digitChar n).isDigit = true := by
  interval_cases n <;> decide

theorem digitVal_digitChar (n : Nat) (h : n < 10) : digitVal (Nat.digitChar n) = n := by
  interval_cases n <;> decide

theorem mem_pad2_ne_dash (n : Nat) : ∀ c ∈ pad2 n, c ≠ '-' := by
  intro c hc
  simp only [pad2, List.mem_cons, List.not_mem_nil, or_false] at hc
  rcases hc with rfl | rfl <;> exact digitChar_ne_dash _

theorem mem_pad4_ne_dash (n : Nat) : ∀ c ∈ pad4 n, c ≠ '-' := by
  intro c hc
  simp only [pad4, List.mem_cons, List.not_mem_nil, or_false] at hc
  rcases hc with rfl | rfl | rfl | rfl <;> exact digitChar_ne_dash _

theorem splitGo_append (l₁ : List Char) (h : ∀ c ∈ l₁, c ≠ '-') :
    ∀ rest acc, splitGo (l₁ ++ '-' :: rest) acc = (acc.reverse ++ l₁) :: splitGo rest [] := by
  induction l₁ with
  | nil => intro rest acc; simp [splitGo]
  | cons c cs ih =>
    intro rest acc
    have hc : c ≠ '-' := h c (by simp)
    rw [List.cons_append, splitGo, if_neg hc,
      ih (fun x hx => h x (by simp [hx])) rest (c :: acc)]
    simp

theorem splitGo_nodash (l : List Char) (h : ∀ c ∈ l, c ≠ '-') :
    ∀ acc, splitGo l acc = [acc.reverse ++ l] := by
  induction l with
  | nil => intro acc; simp [splitGo]
  | cons c cs ih =>
    intro acc
    have hc : c ≠ '-' := h c (by simp)
    rw [splitGo, if_neg hc, ih (fun x hx => h x (by simp [hx])) (c :: acc)]
    simp

theorem parse_pad2 (n : Nat) (h : n ≤ 99) : parseNatDigits (pad2 n) = some n := by
  have h1 : n / 10 < 10 := by omega
  have h2 : n % 10 < 10 := by omega
  unfold parseNatDigits pad2
  rw [if_pos]
  · simp only [List.foldl, digitVal_digitChar _ h1, digitVal_digitChar _ h2]
    congr 1
    omega
  · refine ⟨by simp, ?_⟩
    simp [List.all, digitChar_isDigit _ h1, digitChar_isDigit _ h2]

theorem parse_pad4 (n : Nat) (h : n ≤ 9999) : parseNatDigits (pad4 n) = some n := by
  have h1 : n / 1000 < 10 := by omega
  have h2 : n / 100 % 10 < 10 := by omega
  have h3 : n / 10 % 10 < 10 := by omega
  have h4 : n % 10 < 10 := by omega
  unfold parseNatDigits pad4
  rw [if_pos]
  · simp only [List.foldl, digitVal_digitChar _ h1, digitVal_digitChar _ h2,
      digitVal_digitChar _ h3, digitVal_digitChar _ h4]
    congr 1
    omega
  · refine ⟨by simp, ?_⟩
    simp [List.all, digitChar_isDigit _ h1, digitChar_isDigit _ h2,
      digitChar_isDigit _ h3, digitChar_isDigit _ h4]

theorem strptime_strftime (dt : Date) (hv : isValidDate dt) (h9 : dt.year ≤ 9999) :
    strptimeYMD (strftimeYMD dt) = some dt := by
  obtain ⟨hy, hm1, hm2, hd1, hd2⟩ := hv
  have hd31 : dt.day ≤ 31 := le_trans hd2 (daysInMonth_le_31 _ _)
  show strptimeYMD ⟨pad4 dt.year ++ '-' :: (pad2 dt.month ++ '-' :: pad2 dt.day)⟩ = some dt
  unfold strptimeYMD splitOnDash
  rw [show (String.mk (pad4 dt.year ++ '-' :: (pad2 dt.month ++ '-' :: pad2 dt.day))).data
      = pad4 dt.year ++ '-' :: (pad2 dt.month ++ '-' :: pad2 dt.day) from rfl]
  rw [splitGo_append _ (mem_pad4_ne_dash _) _ [],
      splitGo_append _ (mem_pad2_ne_dash _) _ [],
      splitGo_nodash _ (mem_pad2_ne_dash _) []]
  simp only [List.reverse_nil, List.nil_append]
  show parseYMDparts (pad4 dt.year) (pad2 dt.month) (pad2 dt.day) = some dt
  unfold parseYMDparts
  rw [if_pos (by refine ⟨by simp [pad4], by simp [pad2], by simp [pad2]⟩)]
  rw [parse_pad4 _ h9, parse_pad2 dt.month (by omega), parse_pad2 dt.day (by omega)]
  show (if 1 ≤ dt.year ∧ 1 ≤ dt.month ∧ dt.month ≤ 12 ∧ 1 ≤ dt.day ∧ dt.day ≤ 31 ∧
      dt.day ≤ daysInMonth dt.year dt.month then some (⟨dt.year, dt.month, dt.day⟩ : Date)
      else none) = some dt
  rw [if_pos ⟨hy, hm1, hm2, hd1, hd31, hd2⟩]

theorem strftime_ne_empty (dt : Date) : (strftimeYMD dt).isEmpty = false := by
  rw [Bool.eq_false_iff, ne_eq, String.isEmpty_iff]
  intro h
  have h2 := congrArg String.data h
  simp [strftimeYMD, pad4] at h2

theorem toOrdinal_pos (dt : Date) (h : isValidDate dt) : 1 ≤ toOrdinal dt := by
  obtain ⟨_, _, _, hd, _⟩ := h
  unfold toOrdinal
  omega

theorem daysBeforeYear_succ (y : Nat) (hy : 2 ≤ y) :
    daysBeforeYear y = daysBeforeYear (y - 1) + 365 + (if isLeapYear (y - 1) then 1 else 0) := by
  unfold daysBeforeYear
  have e4 := Nat.succ_div (y - 1 - 1) 4
  have e100 := Nat.succ_div (y - 1 - 1) 100
  have e400 := Nat.succ_div (y - 1 - 1) 400
  rw [show y - 1 - 1 + 1 = y - 1 by omega] at e4 e100 e400
  rw [e4, e100, e400]
  simp only [isLeapYear]
  split_ifs <;> omega

theorem toOrdinal_prevDay (dt : Date) (h : isValidDate dt) (h2 : 2 ≤ toOrdinal dt) :
    isValidDate (prevDay dt) ∧ toOrdinal (prevDay dt) = toOrdinal dt - 1 ∧
      (prevDay dt).year ≤ dt.year := by
  obtain ⟨y, m, d⟩ := dt
  obtain ⟨hy, hm1, hm2, hd1, hd2⟩ := h
  simp only at hy hm1 hm2 hd1 hd2
  by_cases hd : 1 < d
  · rw [prevDay]
    simp only [if_pos hd]
    unfold isValidDate toOrdinal
    simp only
    exact ⟨⟨hy, hm1, hm2, by omega, by omega⟩, by omega, le_refl _⟩
  · by_cases hm : 1 < m
    · have hd' : d = 1 := by omega
      subst hd'
      rw [prevDay]
      simp only [if_neg hd, if_pos hm]
      unfold isValidDate toOrdinal
      simp only
      have hmain : daysBeforeMonth y (m - 1) + daysInMonth y (m - 1) = daysBeforeMonth y m ∧
          1 ≤ daysInMonth y (m - 1) := by
        interval_cases m <;>
          · by_cases hl : isLeapYear y <;> simp [daysBeforeMonth, daysInMonth, hl]
      exact ⟨⟨hy, by omega, by omega, hmain.2, le_refl _⟩, by omega, le_refl _⟩
    · have hm' : m = 1 := by omega
      have hd' : d = 1 := by omega
      subst hm'; subst hd'
      have hy2 : 2 ≤ y := by
        rcases Nat.lt_or_ge y 2 with hlt | hge
        · have hy1 : y = 1 := by omega
          subst hy1
          simp [toOrdinal, daysBeforeYear, daysBeforeMonth] at h2
        · exact hge
      rw [prevDay]
      simp only [if_neg hd, if_neg hm]
      unfold isValidDate toOrdinal
      simp only
      have h31 : daysInMonth (y - 1) 12 = 31 := by simp [daysInMonth]
      have hbm12 : daysBeforeMonth (y - 1) 12 =
          334 + (if isLeapYear (y - 1) then 1 else 0) := by
        by_cases hl : isLeapYear (y - 1) <;> simp [daysBeforeMonth, hl]
      have hbm1 : daysBeforeMonth y 1 = 0 := by simp [daysBeforeMonth]
      rw [h31, hbm12, hbm1]
      have hsucc := daysBeforeYear_succ y hy2
      refine ⟨⟨by omega, by omega, by omega, by omega, by omega⟩, ?_, by omega⟩
      by_cases hl : isLeapYear (y - 1)
      · rw [if_pos hl] at hsucc ⊢
        omega
      · rw [if_neg hl] at hsucc ⊢
        omega

theorem subDays_spec (dt : Date) (h : isValidDate dt) (c : Nat) (hc : c < toOrdinal dt) :
    isValidDate (subDays dt c) ∧ toOrdinal (subDays dt c) = toOrdinal dt - c ∧
      (subDays dt c).year ≤ dt.year := by
  induction c with
  | zero => exact ⟨h, by simp [subDays], le_refl _⟩
  | succ n ih =>
    have hn : n < toOrdinal dt := by omega
    obtain ⟨hv, he, hy⟩ := ih hn
    have h2 : 2 ≤ toOrdinal (subDays dt n) := by omega
    obtain ⟨hv2, he2, hy2⟩ := toOrdinal_prevDay _ hv h2
    refine ⟨hv2, ?_, le_trans hy2 hy⟩
    show toOrdinal (prevDay (subDays dt n)) = toOrdinal dt - (n + 1)
    omega

/-! Lemmas about the fact-scanning and date-parsing loops. -/

theorem strptime_valid (s : String) (dt : Date) (h : strptimeYMD s = some dt) :
    isValidDate dt := by
  unfold strptimeYMD parseYMDparts at h
  repeat' split at h
  all_goals first
    | (simp only [Option.some.injEq] at h
       subst h
       unfold isValidDate
       simp only
       omega)
    | simp at h

theorem parseDateLoop_error (t : Int) : ∀ (qas : List QAPair) (l : Option Date)
    (d : Option String) (r : PhaseResponse), parseDateLoop t qas l d = .error r →
    r = ⟨none, false, some msg_invalid_date, t⟩ := by
  intro qas
  induction qas with
  | nil => intro l d r h; simp [parseDateLoop] at h
  | cons qa rest ih =>
    intro l d r h
    rw [parseDateLoop] at h
    by_cases h1 : qa.question = q_last_period
    · rw [if_pos h1] at h
      cases hp : strptimeYMD qa.answer with
      | some dt => rw [hp] at h; exact ih _ _ _ h
      | none =>
        rw [hp] at h
        injection h with h
        exact h.symm
    · rw [if_neg h1] at h
      by_cases h2 : qa.question = q_duration
      · rw [if_pos h2] at h; exact ih _ _ _ h
      · rw [if_neg h2] at h; exact ih _ _ _ h

theorem scanFacts_snd_acc : ∀ (qas : List QAPair) (l0 l0' : Option String)
    (d0 : Option String), (scanFacts qas (l0, d0)).2 = (scanFacts qas (l0', d0)).2 := by
  intro qas
  induction qas with
  | nil => intro l0 l0' d0; rfl
  | cons qa rest ih =>
    intro l0 l0' d0
    rw [scanFacts, scanFacts]
    by_cases h1 : qa.question = q_last_period
    · rw [if_pos h1, if_pos h1]
    · rw [if_neg h1, if_neg h1]
      by_cases h2 : qa.question = q_duration
      · rw [if_pos h2, if_pos h2]; exact ih _ _ _
      · rw [if_neg h2, if_neg h2]; exact ih _ _ _

theorem parseDateLoop_snd (t : Int) : ∀ (qas : List QAPair) (aL : Option Date)
    (aD : Option String) (l : Option Date) (d : Option String) (aL' : Option String),
    parseDateLoop t qas aL aD = .ok (l, d) → d = (scanFacts qas (aL', aD)).2 := by
  intro qas
  induction qas with
  | nil =>
    intro aL aD l d aL' h
    simp only [parseDateLoop] at h
    injection h with h
    rw [Prod.mk.injEq] at h
    obtain ⟨h1, h2⟩ := h
    subst h2
    rfl
  | cons qa rest ih =>
    intro aL aD l d aL' h
    rw [parseDateLoop] at h
    rw [scanFacts]
    by_cases h1 : qa.question = q_last_period
    · rw [if_pos h1] at h
      rw [if_pos h1]
      cases hp : strptimeYMD qa.answer with
      | some dt =>
        rw [hp] at h
        exact (ih _ _ _ _ (some qa.answer) h).trans (congrArg Prod.snd rfl)
      | none => rw [hp] at h; exact absurd h (by simp)
    · rw [if_neg h1] at h
      rw [if_neg h1]
      by_cases h2 : qa.question = q_duration
      · rw [if_pos h2] at h
        rw [if_pos h2]
        exact ih _ _ _ _ _ h
      · rw [if_neg h2] at h
        rw [if_neg h2]
        exact ih _ _ _ _ _ h

theorem parseDateLoop_fst_isSome (t : Int) : ∀ (qas : List QAPair) (aL : Option Date)
    (aD : Option String) (l : Option Date) (d : Option String),
    parseDateLoop t qas aL aD = .ok (l, d) →
    ((∃ qa ∈ qas, qa.question = q_last_period) ∨ aL.isSome) → l.isSome := by
  intro qas
  induction qas with
  | nil =>
    intro aL aD l d h hex
    simp only [parseDateLoop] at h
    injection h with h
    rw [Prod.mk.injEq] at h
    obtain ⟨h1, h2⟩ := h
    subst h1
    rcases hex with ⟨qa, hmem, _⟩ | hs
    · simp at hmem
    · exact hs
  | cons qa rest ih =>
    intro aL aD l d h hex
    rw [parseDateLoop] at h
    by_cases h1 : qa.question = q_last_period
    · rw [if_pos h1] at h
      cases hp : strptimeYMD qa.answer with
      | some dt => rw [hp] at h; exact ih _ _ _ _ h (Or.inr rfl)
      | none => rw [hp] at h; exact absurd h (by simp)
    · rw [if_neg h1] at h
      have hex' : (∃ x ∈ rest, x.question = q_last_period) ∨ aL.isSome := by
        rcases hex with ⟨x, hmem, hq⟩ | hs
        · rcases List.mem_cons.mp hmem with rfl | hmem'
          · exact absurd hq h1
          · exact Or.inl ⟨x, hmem', hq⟩
        · exact Or.inr hs
      by_cases h2 : qa.question = q_duration
      · rw [if_pos h2] at h; exact ih _ _ _ _ h hex'
      · rw [if_neg h2] at h; exact ih _ _ _ _ h hex'

theorem parseDateLoop_fst_valid (t : Int) : ∀ (qas : List QAPair) (aL : Option Date)
    (aD : Option String) (l : Option Date) (d : Option String),
    parseDateLoop t qas aL aD = .ok (l, d) → (∀ x, aL = some x → isValidDate x) →
    ∀ x, l = some x → isValidDate x := by
  intro qas
  induction qas with
  | nil =>
    intro aL aD l d h hvalid x hx
    simp only [parseDateLoop] at h
    injection h with h
    rw [Prod.mk.injEq] at h
    obtain ⟨h1, h2⟩ := h
    subst h1
    exact hvalid x hx
  | cons qa rest ih =>
    intro aL aD l d h hvalid x hx
    rw [parseDateLoop] at h
    by_cases h1 : qa.question = q_last_period
    · rw [if_pos h1] at h
      cases hp : strptimeYMD qa.answer with
      | some dt =>
        rw [hp] at h
        exact ih _ _ _ _ h (fun y hy => by
          injection hy with hy
          rw [← hy]
          exact strptime_valid _ _ hp) x hx
      | none => rw [hp] at h; exact absurd h (by simp)
    · rw [if_neg h1] at h
      by_cases h2 : qa.question = q_duration
      · rw [if_pos h2] at h; exact ih _ _ _ _ h hvalid x hx
      · rw [if_neg h2] at h; exact ih _ _ _ _ h hvalid x hx

theorem scan_fst_cases : ∀ (qas : List QAPair) (l0 d0 : Option String),
    (scanFacts qas (l0, d0)).1 = l0 ∨ ∃ qa ∈ qas, qa.question = q_last_period := by
  intro qas
  induction qas with
  | nil => intro l0 d0; exact Or.inl rfl
  | cons qa rest ih =>
    intro l0 d0
    rw [scanFacts]
    by_cases h1 : qa.question = q_last_period
    · exact Or.inr ⟨qa, List.mem_cons_self _ _, h1⟩
    · rw [if_neg h1]
      by_cases h2 : qa.question = q_duration
      · rw [if_pos h2]
        rcases ih l0 (some qa.answer) with he | ⟨x, hmem, hq⟩
        · exact Or.inl he
        · exact Or.inr ⟨x, List.mem_cons_of_mem _ hmem, hq⟩
      · rw [if_neg h2]
        rcases ih l0 d0 with he | ⟨x, hmem, hq⟩
        · exact Or.inl he
        · exact Or.inr ⟨x, List.mem_cons_of_mem _ hmem, hq⟩

/-! Evaluation of the calculator on the synthesized normalized fact set. -/

theorem q_duration_ne : ¬ q_duration = q_last_period := by decide

theorem strftime_ne_empty_str (dt : Date) : ¬ strftimeYMD dt = "" := by
  intro h
  have h2 := congrArg String.data h
  simp [strftimeYMD, pad4] at h2

theorem synth_scan (s p : String) :
    scanFacts [⟨q_last_period, s⟩, ⟨q_duration, p⟩] (none, none) = (some s, some p) := by
  rw [scanFacts, if_pos rfl, scanFacts, if_neg q_duration_ne, if_pos rfl, scanFacts]

theorem synth_check (dt : Date) (p : String) (hp : p ≠ "") :
    check_required_data [⟨q_last_period, strftimeYMD dt⟩, ⟨q_duration, p⟩] = (true, none) := by
  unfold check_required_data
  rw [if_neg (by simp), synth_scan]
  rw [if_neg (by simp [truthyStr, String.isEmpty_iff, strftime_ne_empty_str dt]),
      if_neg (by simp [truthyStr, String.isEmpty_iff, hp])]

theorem synth_parseLoop (t : Int) (dt : Date) (p : String)
    (hrt : strptimeYMD (strftimeYMD dt) = some dt) :
    parseDateLoop t [⟨q_last_period, strftimeYMD dt⟩, ⟨q_duration, p⟩] none none
      = .ok (some dt, some p) := by
  simp only [parseDateLoop, if_pos rfl, if_neg q_duration_ne, hrt, ite_true]

theorem calculate_phase_aux_synth (t : Int) (now : Date) (p : String) (c : Nat) (fuel : Nat)
    (hp : p ≠ "") (hv : isValidDate now) (h9 : now.year ≤ 9999) (hc : c < 28)
    (hord : c < toOrdinal now) :
    calculate_phase_aux t (fuel + 1)
      [⟨q_last_period, strftimeYMD (subDays now c)⟩, ⟨q_duration, p⟩] now
    = some { phase := some (phase_of_day c (period_length_of (some p))),
             has_data := true, message := none, calculated_at := t } := by
  obtain ⟨hsv, hso, hsy⟩ := subDays_spec now hv c hord
  have hrt : strptimeYMD (strftimeYMD (subDays now c)) = some (subDays now c) :=
    strptime_strftime _ hsv (le_trans hsy h9)
  have hdays : (toOrdinal now : Int) - (toOrdinal (subDays now c) : Int) = (c : Int) := by
    omega
  rw [calculate_phase_aux]
  simp only [synth_check _ _ hp, synth_parseLoop t _ _ hrt, Bool.not_true, Bool.false_eq_true,
    if_false, hdays]
  rw [show ((period_length_of (some p) : Int) + (14 - (period_length_of (some p) : Int)))
      = 14 by ring]
  unfold phase_of_day
  split_ifs <;> first | rfl | omega

/-! One evaluation step of the calculator once the two facts are in hand. -/

theorem period_length_le (x : Option String) : period_length_of x ≤ 10 := by
  cases x with
  | none => decide
  | some s =>
    show (if s = "3-5" then 4 else if s = "5-7" then 6 else if s = "7-10" then 8
      else if s = "10+" then 10 else 5) ≤ 10
    split_ifs <;> omega

theorem period_length_pos (x : Option String) : 1 ≤ period_length_of x := by
  cases x with
  | none => decide
  | some s =>
    show 1 ≤ (if s = "3-5" then 4 else if s = "5-7" then 6 else if s = "7-10" then 8
      else if s = "10+" then 10 else 5)
    split_ifs <;> omega

theorem calculate_phase_aux_eval (t : Int) (qas : List QAPair) (now : Date)
    (dt : Date) (dur : String)
    (hch : check_required_data qas = (true, none))
    (hpl : parseDateLoop t qas none none = .ok (some dt, some dur)) (fuel : Nat) :
    calculate_phase_aux t (fuel + 1) qas now =
      (if daysSince now dt < 28 then
        some { phase := some (phase_of_day (daysSince now dt) (period_length_of (some dur))),
               has_data := true, message := none, calculated_at := t }
      else
        calculate_phase_aux t fuel
          [⟨q_last_period, strftimeYMD (subDays now ((daysSince now dt) % 28).toNat)⟩,
           ⟨q_duration, dur⟩] now) := by
  rw [calculate_phase_aux]
  simp only [hch, hpl, Bool.not_true, Bool.false_eq_true, if_false]
  rw [show ((period_length_of (some dur) : Int) + (14 - (period_length_of (some dur) : Int)))
      = 14 by ring]
  have hle := period_length_le (some dur)
  unfold daysSince phase_of_day
  split_ifs <;> first | rfl | omega

/-! Invariants of every response the calculator can return. -/

theorem check_required_data_shape (qas : List QAPair) :
    check_required_data qas = (true, none) ∨
    ∃ m : String, check_required_data qas = (false, some m) := by
  unfold check_required_data
  split_ifs
  · exact Or.inr ⟨msg_no_data, rfl⟩
  · exact Or.inr ⟨msg_no_date, rfl⟩
  · exact Or.inr ⟨msg_no_duration, rfl⟩
  · exact Or.inl rfl

theorem calculate_phase_aux_invariant (t : Int) : ∀ (fuel : Nat) (qas : List QAPair)
    (now : Date) (r : PhaseResponse), calculate_phase_aux t fuel qas now = some r →
    r.calculated_at = t ∧
    (r.has_data = false → r.phase = none ∧ r.message.isSome) ∧
    (r.has_data = true → r.phase.isSome ∧ r.message = none) := by
  intro fuel
  induction fuel with
  | zero => intro qas now r h; simp [calculate_phase_aux] at h
  | succ fuel ih =>
    intro qas now r h
    rw [calculate_phase_aux] at h
    rcases check_required_data_shape qas with hch | ⟨m, hch⟩
    · rw [hch] at h
      simp only [Bool.not_true, Bool.false_eq_true, if_false] at h
      cases hpl : parseDateLoop t qas none none with
      | error resp =>
        rw [hpl] at h
        injection h with h
        subst h
        rw [parseDateLoop_error t qas none none resp hpl]
        exact ⟨rfl, fun _ => ⟨rfl, by simp⟩, fun habs => by simp at habs⟩
      | ok pair =>
        obtain ⟨l, d⟩ := pair
        rw [hpl] at h
        cases l with
        | none => simp at h
        | some lastDate =>
          simp only at h
          split_ifs at h
          · injection h with h; subst h
            exact ⟨rfl, fun habs => by simp at habs, fun _ => ⟨by simp, rfl⟩⟩
          · injection h with h; subst h
            exact ⟨rfl, fun habs => by simp at habs, fun _ => ⟨by simp, rfl⟩⟩
          · injection h with h; subst h
            exact ⟨rfl, fun habs => by simp at habs, fun _ => ⟨by simp, rfl⟩⟩
          · injection h with h; subst h
            exact ⟨rfl, fun habs => by simp at habs, fun _ => ⟨by simp, rfl⟩⟩
          · cases d with
            | none => simp at h
            | some dur => exact ih _ _ _ h
    · rw [hch] at h
      simp only [Bool.not_false, if_true] at h
      injection h with h
      subst h
      exact ⟨rfl, fun _ => ⟨rfl, by simp⟩, fun habs => by simp at habs⟩

/-! Totality: the normalization recursion always lands within one extra call. -/

theorem check_true_parts (qas : List QAPair) (h : check_required_data qas = (true, none)) :
    qas.isEmpty = false ∧ truthyStr (scanFacts qas (none, none)).1 = true ∧
      truthyStr (scanFacts qas (none, none)).2 = true := by
  unfold check_required_data at h
  split_ifs at h with h1 h2 h3
  · exact absurd h (by simp)
  · exact absurd h (by simp)
  · exact absurd h (by simp)
  · exact ⟨by simp at h1 ⊢; exact h1, by simpa using h2, by simpa using h3⟩

theorem calculate_phase_aux_total (t : Int) (qas : List QAPair) (now : Date)
    (hv : isValidDate now) (h9 : now.year ≤ 9999) :
    ∃ r : PhaseResponse, ∀ k : Nat, calculate_phase_aux t (k + 2) qas now = some r := by
  rcases check_required_data_shape qas with hch | ⟨m, hch⟩
  · cases hpl : parseDateLoop t qas none none with
    | error resp =>
      refine ⟨resp, fun k => ?_⟩
      show calculate_phase_aux t ((k + 1) + 1) qas now = some resp
      rw [calculate_phase_aux]
      simp only [hch, Bool.not_true, Bool.false_eq_true, if_false, hpl]
    | ok pair =>
      obtain ⟨l, d⟩ := pair
      obtain ⟨hne, htr1, htr2⟩ := check_true_parts qas hch
      have hdscan := parseDateLoop_snd t qas none none l d none hpl
      have hd : ∃ dur : String, d = some dur ∧ ¬dur = "" := by
        rcases hdd : d with _ | dur
        · rw [hdd] at hdscan
          rw [← hdscan] at htr2
          simp [truthyStr] at htr2
        · refine ⟨dur, rfl, ?_⟩
          rw [hdd] at hdscan
          rw [← hdscan] at htr2
          simp only [truthyStr, Bool.not_eq_eq_eq_not, Bool.not_false] at htr2
          rw [← String.isEmpty_iff]
          simp [htr2]
      obtain ⟨dur, rfl, hdur⟩ := hd
      have hl : l.isSome := by
        apply parseDateLoop_fst_isSome t qas none (none) l (some dur) hpl
        left
        rcases scan_fst_cases qas none none with he | hex
        · rw [he] at htr1; simp [truthyStr] at htr1
        · exact hex
      obtain ⟨dt, rfl⟩ := Option.isSome_iff_exists.mp hl
      have hdtv : isValidDate dt :=
        parseDateLoop_fst_valid t qas none none (some dt) (some dur) hpl
          (by simp) dt rfl
      by_cases hlt : daysSince now dt < 28
      · refine ⟨⟨some (phase_of_day (daysSince now dt) (period_length_of (some dur))),
            true, none, t⟩, fun k => ?_⟩
        show calculate_phase_aux t ((k + 1) + 1) qas now = _
        rw [calculate_phase_aux_eval t qas now dt dur hch hpl (k + 1), if_pos hlt]
      · have hds : daysSince now dt = (toOrdinal now : Int) - (toOrdinal dt : Int) := rfl
        have hord1 : 1 ≤ toOrdinal dt := toOrdinal_pos dt hdtv
        have hc28 : ((daysSince now dt) % 28).toNat < 28 := by omega
        have hcord : ((daysSince now dt) % 28).toNat < toOrdinal now := by omega
        refine ⟨⟨some (phase_of_day (((daysSince now dt) % 28).toNat)
            (period_length_of (some dur))), true, none, t⟩, fun k => ?_⟩
        show calculate_phase_aux t ((k + 1) + 1) qas now = _
        rw [calculate_phase_aux_eval t qas now dt dur hch hpl (k + 1), if_neg hlt,
            calculate_phase_aux_synth t now dur _ k hdur hv h9 hc28 hcord]
  · refine ⟨⟨none, false, some m, t⟩, fun k => ?_⟩
    show calculate_phase_aux t ((k + 1) + 1) qas now = _
    rw [calculate_phase_aux]
    simp only [hch, Bool.not_false, if_true]

theorem parseDateLoop_fails (t : Int) : ∀ (qas : List QAPair) (aL : Option Date)
    (aD : Option String),
    (∃ qa ∈ qas, qa.question = q_last_period ∧ strptimeYMD qa.answer = none) →
    parseDateLoop t qas aL aD = .error ⟨none, false, some msg_invalid_date, t⟩ := by
  intro qas
  induction qas with
  | nil =>
    intro aL aD ⟨qa, hmem, _⟩
    simp at hmem
  | cons qa rest ih =>
    intro aL aD ⟨x, hmem, hq, hpn⟩
    rw [parseDateLoop]
    rcases List.mem_cons.mp hmem with rfl | hmem'
    · rw [if_pos hq, hpn]
    · by_cases h1 : qa.question = q_last_period
      · rw [if_pos h1]
        cases hp : strptimeYMD qa.answer with
        | some dt2 => exact ih _ _ ⟨x, hmem', hq, hpn⟩
        | none => rfl
      · rw [if_neg h1]
        by_cases h2 : qa.question = q_duration
        · rw [if_pos h2]; exact ih _ _ ⟨x, hmem', hq, hpn⟩
        · rw [if_neg h2]; exact ih _ _ ⟨x, hmem', hq, hpn⟩

/-- C2 (counterexample): on a non-empty fact set missing both required
questions, `calculate_phase` reports the missing-date message, not the
missing-duration message the claim's precedence ordering demands, and the
two messages are distinct. -/
theorem C2_counterexample :
    calculate_phase 0 [⟨"What is your age?", "21"⟩] ⟨2024, 1, 1⟩
      = some ⟨none, false, some msg_no_date, 0⟩ ∧ msg_no_date ≠ msg_no_duration := by
  constructor
  · rfl
  · decide

/-- C2 (amended): for every fact set missing a required question,
`calculate_phase` returns `has_data := false`, no phase, and a message naming
a missing fact, with precedence empty fact set ("no data at all") over
missing date over missing duration — the code checks the last-period date
before the period duration, so when both are absent the missing-date message
wins. -/
theorem C2_missing_fact_messages (t : Int) (qa_pairs : List QAPair) (now : Date) :
    (qa_pairs = [] → calculate_phase t qa_pairs now = some ⟨none, false, some msg_no_data, t⟩) ∧
    (qa_pairs ≠ [] → truthyStr (scanFacts qa_pairs (none, none)).1 = false →
      calculate_phase t qa_pairs now = some ⟨none, false, some msg_no_date, t⟩) ∧
    (qa_pairs ≠ [] → truthyStr (scanFacts qa_pairs (none, none)).1 = true →
      truthyStr (scanFacts qa_pairs (none, none)).2 = false →
      calculate_phase t qa_pairs now = some ⟨none, false, some msg_no_duration, t⟩) := by
  refine ⟨?_, ?_, ?_⟩
  · intro h
    subst h
    rfl
  · intro hne htr
    have hne2 : qa_pairs.isEmpty = false := by
      cases qa_pairs
      · exact absurd rfl hne
      · rfl
    have hch : check_required_data qa_pairs = (false, some msg_no_date) := by
      unfold check_required_data
      rw [if_neg (by simp [hne2]), if_pos (by simp [htr])]
    show calculate_phase_aux t (1 + 1) qa_pairs now = _
    rw [calculate_phase_aux]
    simp only [hch, Bool.not_false, if_true]
  · intro hne htr1 htr2
    have hne2 : qa_pairs.isEmpty = false := by
      cases qa_pairs
      · exact absurd rfl hne
      · rfl
    have hch : check_required_data qa_pairs = (false, some msg_no_duration) := by
      unfold check_required_data
      rw [if_neg (by simp [hne2]), if_neg (by simp [htr1]), if_pos (by simp [htr2])]
    show calculate_phase_aux t (1 + 1) qa_pairs now = _
    rw [calculate_phase_aux]
    simp only [hch, Bool.not_false, if_true]

/-- C3: the `calculated_at` field of every successful or unsuccessful
`PhaseResponse` equals the single module-import evaluation of
`datetime.utcnow()` (the pydantic class-body default), not the wall-clock
time of the invocation: two invocations at different current times carry the
same timestamp. -/
theorem C3_calculated_at_import_time (t : Int) (qa_pairs : List QAPair) (now : Date)
    (r : PhaseResponse) (h : calculate_phase t qa_pairs now = some r) :
    r.calculated_at = t ∧
    (∀ (now2 : Date) (r2 : PhaseResponse), calculate_phase t qa_pairs now2 = some r2 →
      r2.calculated_at = r.calculated_at) := by
  have h1 := (calculate_phase_aux_invariant t 2 qa_pairs now r h).1
  exact ⟨h1, fun now2 r2 h2 => by
    rw [(calculate_phase_aux_invariant t 2 qa_pairs now2 r2 h2).1, h1]⟩

theorem C3_witness :
    calculate_phase 5 [⟨q_last_period, "2024-02-20"⟩, ⟨q_duration, "3-5"⟩] ⟨2024, 3, 1⟩
      = some ⟨some .follicular, true, none, 5⟩ ∧
    (⟨some .follicular, true, none, 5⟩ : PhaseResponse).calculated_at = 5 := by
  have h : calculate_phase 5 [⟨q_last_period, "2024-02-20"⟩, ⟨q_duration, "3-5"⟩]
      ⟨2024, 3, 1⟩ = some ⟨some .follicular, true, none, 5⟩ := by rfl
  exact ⟨h, (C3_calculated_at_import_time 5 _ _ _ h).1⟩

/-- C6: the response invariant: no data implies no phase and a populated
message; data implies a phase and no message. -/
theorem C6_response_invariant (t : Int) (qa_pairs : List QAPair) (now : Date)
    (r : PhaseResponse) (h : calculate_phase t qa_pairs now = some r) :
    (r.has_data = false → r.phase = none ∧ r.message.isSome) ∧
    (r.has_data = true → r.phase.isSome ∧ r.message = none) :=
  (calculate_phase_aux_invariant t 2 qa_pairs now r h).2

theorem C6_witness :
    calculate_phase 0 ([] : List QAPair) ⟨2024, 3, 1⟩
      = some ⟨none, false, some msg_no_data, 0⟩ ∧
    ((false = false → (none : Option MenstrualPhase) = none ∧ (some msg_no_data).isSome) ∧
     (false = true → (none : Option MenstrualPhase).isSome ∧ some msg_no_data = none)) := by
  refine ⟨by rfl, ?_⟩
  exact C6_response_invariant 0 [] ⟨2024, 3, 1⟩ ⟨none, false, some msg_no_data, 0⟩ (by rfl)

/-- C7: when both required facts pass the presence check but some answer to
the last-period question does not parse as `YYYY-MM-DD`, the calculator
returns `has_data := false` with the invalid-date message — which differs
from each of the three missing-fact messages — and no unhandled failure. -/
theorem C7_invalid_date (t : Int) (qa_pairs : List QAPair) (now : Date)
    (hch : check_required_data qa_pairs = (true, none))
    (hbad : ∃ qa ∈ qa_pairs, qa.question = q_last_period ∧ strptimeYMD qa.answer = none) :
    calculate_phase t qa_pairs now = some ⟨none, false, some msg_invalid_date, t⟩ ∧
    msg_invalid_date ≠ msg_no_data ∧ msg_invalid_date ≠ msg_no_date ∧
    msg_invalid_date ≠ msg_no_duration := by
  refine ⟨?_, by decide, by decide, by decide⟩
  show calculate_phase_aux t (1 + 1) qa_pairs now = _
  rw [calculate_phase_aux]
  simp only [hch, Bool.not_true, Bool.false_eq_true, if_false,
    parseDateLoop_fails t qa_pairs none none hbad]

theorem C7_witness :
    check_required_data [⟨q_last_period, "Feb 2024"⟩, ⟨q_duration, "3-5"⟩] = (true, none) ∧
    calculate_phase 0 [⟨q_last_period, "Feb 2024"⟩, ⟨q_duration, "3-5"⟩] ⟨2024, 3, 1⟩
      = some ⟨none, false, some msg_invalid_date, 0⟩ := by
  refine ⟨by rfl, ?_⟩
  exact (C7_invalid_date 0 _ ⟨2024, 3, 1⟩ (by rfl)
    ⟨⟨q_last_period, "Feb 2024"⟩, by simp, rfl, by rfl⟩).1

/-- C8: the calculator is a pure function of the fact set and the injected
current time: identical facts and identical "now" give identical results. -/
theorem C8_deterministic (t : Int) (qa1 qa2 : List QAPair) (now1 now2 : Date)
    (hq : qa1 = qa2) (hn : now1 = now2) :
    calculate_phase t qa1 now1 = calculate_phase t qa2 now2 := by
  subst hq
  subst hn
  rfl

theorem C8_witness :
    [(⟨q_last_period, "2024-02-20"⟩ : QAPair)] = [⟨q_last_period, "2024-02-20"⟩] ∧
    calculate_phase 0 [⟨q_last_period, "2024-02-20"⟩] ⟨2024, 3, 1⟩
      = calculate_phase 0 [⟨q_last_period, "2024-02-20"⟩] ⟨2024, 3, 1⟩ :=
  ⟨rfl, C8_deterministic 0 _ _ _ _ rfl rfl⟩

theorem C2_witness :
    ([] : List QAPair) = [] ∧
    calculate_phase 0 ([] : List QAPair) ⟨2024, 1, 1⟩
      = some ⟨none, false, some msg_no_data, 0⟩ :=
  ⟨rfl, (C2_missing_fact_messages 0 [] ⟨2024, 1, 1⟩).1 rfl⟩

/-- C1: with both facts in hand — the surviving last-period answer parsing
to `dt` exactly `d` days before `now`, and the duration answer `p` mapping to
representative length `L` via the bucket table (3-5↦4, 5-7↦6, 7-10↦8,
10+↦10, anything else↦5) — the phase is menstrual iff `d < L`, follicular
iff `L ≤ d < 14`, ovulation iff `14 ≤ d < 17`, luteal iff `17 ≤ d < 28`, and
for `d ≥ 28` the result equals `calculate_phase` on the synthesized fact set
whose last-period date lies exactly `d % 28` days before `now` with the same
period-length fact (and is itself a successful phase). -/
theorem C1_phase_windows (t : Int) (qa_pairs : List QAPair) (now dt : Date)
    (p : String) (d : Int) (L : Nat)
    (hch : check_required_data qa_pairs = (true, none))
    (hpl : parseDateLoop t qa_pairs none none = .ok (some dt, some p))
    (hd : d = daysSince now dt)
    (hL : period_length_of (some p) = L) :
    (d < L → calculate_phase t qa_pairs now = some ⟨some .menstrual, true, none, t⟩) ∧
    (L ≤ d → d < 14 → calculate_phase t qa_pairs now = some ⟨some .follicular, true, none, t⟩) ∧
    (14 ≤ d → d < 17 → calculate_phase t qa_pairs now = some ⟨some .ovulation, true, none, t⟩) ∧
    (17 ≤ d → d < 28 → calculate_phase t qa_pairs now = some ⟨some .luteal, true, none, t⟩) ∧
    (28 ≤ d → isValidDate now → now.year ≤ 9999 →
      calculate_phase t qa_pairs now =
        calculate_phase t [⟨q_last_period, strftimeYMD (subDays now (d % 28).toNat)⟩,
          ⟨q_duration, p⟩] now ∧
      daysSince now (subDays now (d % 28).toNat) = d % 28 ∧
      ∃ ph : MenstrualPhase, calculate_phase t qa_pairs now = some ⟨some ph, true, none, t⟩) ∧
    (period_length_of (some "3-5") = 4 ∧ period_length_of (some "5-7") = 6 ∧
     period_length_of (some "7-10") = 8 ∧ period_length_of (some "10+") = 10 ∧
     ∀ q : Option String, q ≠ some "3-5" → q ≠ some "5-7" → q ≠ some "7-10" →
       q ≠ some "10+" → period_length_of q = 5) := by
  subst hd
  subst hL
  have hle := period_length_le (some p)
  have heval := calculate_phase_aux_eval t qa_pairs now dt p hch hpl 1
  refine ⟨?_, ?_, ?_, ?_, ?_, ?_, ?_, ?_, ?_, ?_⟩
  · intro h1
    show calculate_phase_aux t (1 + 1) qa_pairs now = _
    rw [heval, if_pos (by omega)]
    unfold phase_of_day
    rw [if_pos h1]
  · intro h1 h2
    show calculate_phase_aux t (1 + 1) qa_pairs now = _
    rw [heval, if_pos (by omega)]
    unfold phase_of_day
    rw [if_neg (by omega), if_pos h2]
  · intro h1 h2
    show calculate_phase_aux t (1 + 1) qa_pairs now = _
    rw [heval, if_pos (by omega)]
    unfold phase_of_day
    rw [if_neg (by omega), if_neg (by omega), if_pos h2]
  · intro h1 h2
    show calculate_phase_aux t (1 + 1) qa_pairs now = _
    rw [heval, if_pos h2]
    unfold phase_of_day
    rw [if_neg (by omega), if_neg (by omega), if_neg (by omega)]
  · intro h28 hv h9
    obtain ⟨hne, htr1, htr2⟩ := check_true_parts qa_pairs hch
    have hdscan := parseDateLoop_snd t qa_pairs none none (some dt) (some p) none hpl
    have hp : ¬ p = "" := by
      intro hp0
      rw [hp0] at hdscan
      rw [← hdscan] at htr2
      simp [truthyStr] at htr2
      exact absurd htr2 (by decide)
    have hdtv : isValidDate dt :=
      parseDateLoop_fst_valid t qa_pairs none none (some dt) (some p) hpl (by simp) dt rfl
    have hds : daysSince now dt = (toOrdinal now : Int) - toOrdinal dt := rfl
    have hord1 : 1 ≤ toOrdinal dt := toOrdinal_pos dt hdtv
    have hc28 : ((daysSince now dt) % 28).toNat < 28 := by omega
    have hcord : ((daysSince now dt) % 28).toNat < toOrdinal now := by omega
    have hnotlt : ¬ daysSince now dt < 28 := by omega
    refine ⟨?_, ?_, ?_⟩
    · show calculate_phase_aux t (1 + 1) qa_pairs now = calculate_phase_aux t (1 + 1)
        [⟨q_last_period, strftimeYMD (subDays now ((daysSince now dt) % 28).toNat)⟩,
          ⟨q_duration, p⟩] now
      rw [heval, if_neg hnotlt,
          calculate_phase_aux_synth t now p _ 0 hp hv h9 hc28 hcord,
          calculate_phase_aux_synth t now p _ 1 hp hv h9 hc28 hcord]
    · obtain ⟨hsv, hso, hsy⟩ := subDays_spec now hv _ hcord
      show (toOrdinal now : Int) - toOrdinal (subDays now ((daysSince now dt) % 28).toNat)
        = daysSince now dt % 28
      omega
    · refine ⟨phase_of_day (((daysSince now dt) % 28).toNat) (period_length_of (some p)), ?_⟩
      show calculate_phase_aux t (1 + 1) qa_pairs now = _
      rw [heval, if_neg hnotlt, calculate_phase_aux_synth t now p _ 0 hp hv h9 hc28 hcord]
  · rfl
  · rfl
  · rfl
  · rfl
  · intro q h1 h2 h3 h4
    cases q with
    | none => rfl
    | some s =>
      show (if s = "3-5" then 4 else if s = "5-7" then 6 else if s = "7-10" then 8
        else if s = "10+" then 10 else 5) = 5
      rw [if_neg (fun h => h1 (by rw [h])), if_neg (fun h => h2 (by rw [h])),
          if_neg (fun h => h3 (by rw [h])), if_neg (fun h => h4 (by rw [h]))]

theorem C1_witness :
    check_required_data [⟨q_last_period, "2024-02-20"⟩, ⟨q_duration, "3-5"⟩] = (true, none) ∧
    calculate_phase 0 [⟨q_last_period, "2024-02-20"⟩, ⟨q_duration, "3-5"⟩] ⟨2024, 3, 1⟩
      = some ⟨some .follicular, true, none, 0⟩ := by
  have hch : check_required_data [⟨q_last_period, "2024-02-20"⟩, ⟨q_duration, "3-5"⟩]
      = (true, none) := by rfl
  have hpl : parseDateLoop 0 [⟨q_last_period, "2024-02-20"⟩, ⟨q_duration, "3-5"⟩] none none
      = .ok (some ⟨2024, 2, 20⟩, some "3-5") := by rfl
  refine ⟨hch, ?_⟩
  exact (C1_phase_windows 0 _ ⟨2024, 3, 1⟩ ⟨2024, 2, 20⟩ "3-5" 10 4 hch hpl (by rfl)
    (by rfl)).2.1 (by decide) (by decide)

/-- C10: for every fact set and every valid current time, the calculator
terminates within fuel 2: the normalized recursive call lands on a cycle day
strictly below 28 and never recurses again, so the result exists and is
unchanged by any additional fuel. -/
theorem C10_termination (t : Int) (qa_pairs : List QAPair) (now : Date)
    (hv : isValidDate now) (h9 : now.year ≤ 9999) :
    (calculate_phase t qa_pairs now).isSome ∧
    ∀ k : Nat, calculate_phase_aux t (2 + k) qa_pairs now
      = calculate_phase_aux t 2 qa_pairs now := by
  obtain ⟨r, hr⟩ := calculate_phase_aux_total t qa_pairs now hv h9
  constructor
  · show (calculate_phase_aux t (0 + 2) qa_pairs now).isSome
    rw [hr 0]
    rfl
  · intro k
    have h1 : calculate_phase_aux t (2 + k) qa_pairs now = some r := by
      rw [Nat.add_comm]
      exact hr k
    have h2 : calculate_phase_aux t 2 qa_pairs now = some r := hr 0
    rw [h1, h2]

theorem C10_witness :
    isValidDate ⟨2024, 3, 1⟩ ∧ (⟨2024, 3, 1⟩ : Date).year ≤ 9999 ∧
    (calculate_phase 0 [⟨q_last_period, "2023-01-01"⟩, ⟨q_duration, "3-5"⟩]
      ⟨2024, 3, 1⟩).isSome :=
  ⟨by decide, by decide, (C10_termination 0 _ _ (by decide) (by decide)).1⟩

/-! Lemmas for the two generator services. -/

def rec_required_keys : List String :=
  ["diet_recommendations", "exercise_recommendations", "symptoms_to_watch", "affirmation"]

theorem jget_error_class (j : Json) (k : String) (e : PyError)
    (h : jget j k = .error e) : classify_error e = .generationParseError := by
  cases j with
  | obj fields =>
    simp only [jget] at h
    cases hlk : lookup_last fields k with
    | some v => rw [hlk] at h; exact absurd h (by simp)
    | none =>
      rw [hlk] at h
      injection h with h
      subst h
      rfl
  | null => injection h with h; subst h; rfl
  | bool b => injection h with h; subst h; rfl
  | num raw => injection h with h; subst h; rfl
  | str s => injection h with h; subst h; rfl
  | arr items => injection h with h; subst h; rfl

/-- C5: whenever the phase calculator reports no usable data, both
generators fail with the "Insufficient menstrual data" `ValueError` (the
spec's `InsufficientData` class) and send zero prompts to the generation
collaborator. -/
theorem C5_insufficient_data_no_calls (t : Int) (user : User) (now : Date)
    (reply : Option Json) (uuidGen : Nat → String) (pr : PhaseResponse)
    (hpr : calculate_phase t user.qa_pairs now = some pr)
    (hnd : pr.has_data = false) :
    get_recommendations t user now reply =
      some (.error (.valueError "Insufficient menstrual data to generate recommendations"), []) ∧
    get_suggested_events t user now reply uuidGen =
      some (.error (.valueError "Insufficient menstrual data to generate suggestions"), []) ∧
    classify_error (.valueError "Insufficient menstrual data to generate recommendations")
      = .insufficientData ∧
    classify_error (.valueError "Insufficient menstrual data to generate suggestions")
      = .insufficientData := by
  refine ⟨?_, ?_, by decide, by decide⟩
  · unfold get_recommendations
    rw [hpr]
    simp only [hnd, Bool.not_false, if_true]
  · unfold get_suggested_events
    rw [hpr]
    simp only [hnd, Bool.not_false, if_true]

theorem C5_witness :
    calculate_phase 0 (User.mk none none [] [] []).qa_pairs ⟨2024, 1, 1⟩
      = some ⟨none, false, some msg_no_data, 0⟩ ∧
    get_recommendations 0 ⟨none, none, [], [], []⟩ ⟨2024, 1, 1⟩ none
      = some (.error (.valueError "Insufficient menstrual data to generate recommendations"), []) := by
  have h : calculate_phase 0 (User.mk none none [] [] []).qa_pairs ⟨2024, 1, 1⟩
      = some ⟨none, false, some msg_no_data, 0⟩ := by rfl
  exact ⟨h, (C5_insufficient_data_no_calls 0 ⟨none, none, [], [], []⟩ ⟨2024, 1, 1⟩ none
    (fun _ => "") _ h rfl).1⟩

/-- C4: a collaborator reply that is JSON but lacks a required field makes
`get_recommendations` (any of its four required keys) and
`get_suggested_events` (its `suggested_events` key) fail with an error of
the spec's `GenerationParseError` class — a `KeyError`/`TypeError` from the
subscript, never the insufficient-data error — and neither ever returns a
partially populated result. -/
theorem C4_missing_field_fails (t : Int) (user : User) (now : Date) (j : Json)
    (uuidGen : Nat → String) (pr : PhaseResponse)
    (hpr : calculate_phase t user.qa_pairs now = some pr)
    (hdata : pr.has_data = true) :
    ((∃ k, k ∈ rec_required_keys ∧ ∃ e0, jget j k = .error e0) →
      ∃ e ps, get_recommendations t user now (some j) = some (.error e, ps) ∧
        classify_error e = .generationParseError ∧
        ∀ rec ps2, get_recommendations t user now (some j) ≠ some (.ok rec, ps2)) ∧
    ((∃ e0, jget j "suggested_events" = .error e0) →
      ∃ e ps, get_suggested_events t user now (some j) uuidGen = some (.error e, ps) ∧
        classify_error e = .generationParseError ∧
        ∀ evs ps2, get_suggested_events t user now (some j) uuidGen ≠ some (.ok evs, ps2)) := by
  constructor
  · intro ⟨k, hk, e0, he0⟩
    have main : ∃ e ps, get_recommendations t user now (some j) = some (.error e, ps) ∧
        classify_error e = .generationParseError := by
      unfold get_recommendations
      rw [hpr]
      simp only [hdata, Bool.not_true, Bool.false_eq_true, if_false]
      cases h1 : jget j "diet_recommendations" with
      | error e1 => exact ⟨e1, _, rfl, jget_error_class j _ e1 h1⟩
      | ok v1 =>
        cases h2 : jget j "exercise_recommendations" with
        | error e2 => exact ⟨e2, _, rfl, jget_error_class j _ e2 h2⟩
        | ok v2 =>
          cases h3 : jget j "symptoms_to_watch" with
          | error e3 => exact ⟨e3, _, rfl, jget_error_class j _ e3 h3⟩
          | ok v3 =>
            cases h4 : jget j "affirmation" with
            | error e4 => exact ⟨e4, _, rfl, jget_error_class j _ e4 h4⟩
            | ok v4 =>
              exfalso
              simp only [rec_required_keys, List.mem_cons, List.not_mem_nil, or_false] at hk
              rcases hk with rfl | rfl | rfl | rfl
              · rw [h1] at he0; exact absurd he0 (by simp)
              · rw [h2] at he0; exact absurd he0 (by simp)
              · rw [h3] at he0; exact absurd he0 (by simp)
              · rw [h4] at he0; exact absurd he0 (by simp)
    obtain ⟨e, ps, heq, hcls⟩ := main
    refine ⟨e, ps, heq, hcls, fun rec ps2 hcon => ?_⟩
    rw [heq] at hcon
    simp at hcon
  · intro ⟨e0, he0⟩
    have main : ∃ e ps, get_suggested_events t user now (some j) uuidGen
        = some (.error e, ps) ∧ classify_error e = .generationParseError := by
      unfold get_suggested_events
      rw [hpr]
      simp only [hdata, Bool.not_true, Bool.false_eq_true, if_false]
      cases hse : jget j "suggested_events" with
      | error e1 =>
        refine ⟨e1, _, rfl, jget_error_class j _ e1 hse⟩
      | ok v =>
        rw [hse] at he0
        exact absurd he0 (by simp)
    obtain ⟨e, ps, heq, hcls⟩ := main
    refine ⟨e, ps, heq, hcls, fun evs ps2 hcon => ?_⟩
    rw [heq] at hcon
    simp at hcon
theorem C4_witness :
    calculate_phase 0 (User.mk (some 24) (some "student") [] []
        [⟨q_last_period, "2024-02-20"⟩, ⟨q_duration, "3-5"⟩]).qa_pairs ⟨2024, 3, 1⟩
      = some ⟨some .follicular, true, none, 0⟩ ∧
    (∃ e ps, get_recommendations 0 (User.mk (some 24) (some "student") [] []
        [⟨q_last_period, "2024-02-20"⟩, ⟨q_duration, "3-5"⟩]) ⟨2024, 3, 1⟩
        (some (Json.obj [])) = some (.error e, ps) ∧
      classify_error e = .generationParseError ∧
      ∀ rec ps2, get_recommendations 0 (User.mk (some 24) (some "student") [] []
        [⟨q_last_period, "2024-02-20"⟩, ⟨q_duration, "3-5"⟩]) ⟨2024, 3, 1⟩
        (some (Json.obj [])) ≠ some (.ok rec, ps2)) := by
  have h : calculate_phase 0 (User.mk (some 24) (some "student") [] []
      [⟨q_last_period, "2024-02-20"⟩, ⟨q_duration, "3-5"⟩]).qa_pairs ⟨2024, 3, 1⟩
      = some ⟨some .follicular, true, none, 0⟩ := by rfl
  refine ⟨h, ?_⟩
  exact (C4_missing_field_fails 0 _ _ (Json.obj []) (fun _ => "") _ h rfl).1
    ⟨"diet_recommendations", by simp [rec_required_keys],
     .keyError "diet_recommendations", rfl⟩

theorem build_suggested_events_color (g : Nat → String) : ∀ (items : List Json) (i : Nat)
    (evs : List SuggestedEvent), build_suggested_events g items i = .ok evs →
    ∀ e ∈ evs, e.color = event_color e.type := by
  intro items
  induction items with
  | nil =>
    intro i evs h e he
    simp only [build_suggested_events] at h
    injection h with h
    subst h
    simp at he
  | cons item rest ih =>
    intro i evs h e he
    rw [build_suggested_events] at h
    repeat' split at h
    all_goals
      first
      | (injection h with h
         subst h
         rcases List.mem_cons.mp he with rfl | hmem
         · rfl
         · exact ih _ _ (by assumption) e hmem)
      | simp at h

/-- C9: category-to-color resolution is total: every event returned by
`get_suggested_events` carries the color resolved from its category via the
fixed table; "wellness" (and each of the five known categories) maps to its
fixed constant; any unrecognized category maps to the default gray; and the
resolved color always lies in the fixed six-color set. -/
theorem C9_category_color_total :
    (∀ (t : Int) (user : User) (now : Date) (j : Json) (g : Nat → String)
       (evs : List SuggestedEvent) (ps : List String),
       get_suggested_events t user now (some j) g = some (.ok evs, ps) →
       ∀ e ∈ evs, e.color = event_color e.type) ∧
    event_color "wellness" = "#4CAF50" ∧
    event_color "productivity" = "#2196F3" ∧
    event_color "rest" = "#9C27B0" ∧
    event_color "social" = "#FF9800" ∧
    event_color "learning" = "#795548" ∧
    (∀ ty : String, (py_lower ty) ∉ ["wellness", "productivity", "rest", "social", "learning"] →
      event_color ty = "#607D8B") ∧
    (∀ ty : String, event_color ty ∈
      ["#4CAF50", "#2196F3", "#9C27B0", "#FF9800", "#795548", "#607D8B"]) := by
  refine ⟨?_, by rfl, by rfl, by rfl, by rfl, by rfl, ?_, ?_⟩
  · intro t user now j g evs ps h
    unfold get_suggested_events at h
    repeat' split at h
    all_goals
      first
      | (simp only [Option.some.injEq, Prod.mk.injEq, Except.ok.injEq] at h
         obtain ⟨rfl, rfl⟩ := h
         exact build_suggested_events_color g _ _ _ (by assumption))
      | simp at h
  · intro ty hne
    simp only [List.mem_cons, List.not_mem_nil, or_false, not_or] at hne
    obtain ⟨h1, h2, h3, h4, h5⟩ := hne
    have e1 : (py_lower ty == "wellness") = false := by simp [h1]
    have e2 : (py_lower ty == "productivity") = false := by simp [h2]
    have e3 : (py_lower ty == "rest") = false := by simp [h3]
    have e4 : (py_lower ty == "social") = false := by simp [h4]
    have e5 : (py_lower ty == "learning") = false := by simp [h5]
    simp [event_color, EVENT_COLORS, List.lookup, e1, e2, e3, e4, e5]
  · intro ty
    unfold event_color
    cases hlk : EVENT_COLORS.lookup (py_lower ty) with
    | none => simp
    | some c =>
      have hc : c = "#4CAF50" ∨ c = "#2196F3" ∨ c = "#9C27B0" ∨ c = "#FF9800" ∨
          c = "#795548" := by
        simp only [EVENT_COLORS, List.lookup] at hlk
        repeat' split at hlk
        all_goals simp_all
      rcases hc with rfl | rfl | rfl | rfl | rfl <;> simp

theorem C9_witness :
    py_lower "Workout" ∉ ["wellness", "productivity", "rest", "social", "learning"] ∧
    event_color "Workout" = "#607D8B" ∧ event_color "wellness" = "#4CAF50" :=
  ⟨by decide, C9_category_color_total.2.2.2.2.2.2.1 "Workout" (by decide),
   C9_category_color_total.2.1⟩
